import Mathlib

/-
  Shallow embedding of the z-server-api attestation service.

  Two server variants carry the behaviour the specification describes:
  * `src/server.js` (v3, production): API-key gated challenge/verify with a
    SQLite-backed client registry (quotas, lifecycle) — embedded below as the
    `v3...` and client-registry definitions.
  * `src/unnamed/part_000` (secure mode): /getChallenge, /attest (panic mode,
    risk scoring, session minting) and /verify (session validation) — embedded
    below as the `attest`/`p0...` definitions.

  JavaScript numbers used for sensor scores are modelled as exact rationals;
  timestamps as integers; JSON maps as functions `String → Option _`.
  Optional / possibly-missing JSON fields are modelled with `Option`.
-/

namespace ZKinetic

/-- Risk classification enum, as the string literals 'LOW'/'MEDIUM'/'HIGH'/'CRITICAL'. -/
inductive Risk where
  | LOW
  | MEDIUM
  | HIGH
  | CRITICAL
deriving DecidableEq, Repr

/-- Biometric payload `{motion, touch, pattern}`; each field may be absent
(JS `undefined`), hence `Option`. -/
structure BioData where
  motion : Option ℚ
  touch : Option ℚ
  pattern : Option ℚ
deriving DecidableEq, Repr

/-- Functional update of a string-keyed map (JS `Map.set`). -/
def mapInsert {α : Type} (m : String → Option α) (k : String) (v : α) :
    String → Option α :=
  fun x => if x = k then some v else m x

/-- Functional removal from a string-keyed map (JS `Map.delete`). -/
def mapDelete {α : Type} (m : String → Option α) (k : String) :
    String → Option α :=
  fun x => if x = k then none else m x

/-- `code.join('')` on an array of digits: concatenation of decimal renderings. -/
def joinDigits (l : List ℕ) : String :=
  String.join (l.map toString)

/-- Risk classification from the average biometric score, as written twice in the
source: `avgScore > 0.7 ? 'LOW' : avgScore > 0.4 ? 'MEDIUM' : 'HIGH'`. -/
def classifyRisk (avgScore : ℚ) : Risk :=
  if avgScore > 0.7 then .LOW else if avgScore > 0.4 then .MEDIUM else .HIGH

/-- `[motionOK, touchOK, patternOK].filter(Boolean).length` with the fixed
thresholds `motion > 0.15`, `touch > 0.15`, `pattern > 0.10`: the number of
threshold checks that pass. -/
def sensorsActiveCount (motion touch pattern : ℚ) : ℕ :=
  (if motion > (0.15 : ℚ) then 1 else 0) +
  (if touch > (0.15 : ℚ) then 1 else 0) +
  (if pattern > (0.10 : ℚ) then 1 else 0)

/-! ## Secure-mode server (`src/unnamed/part_000`) -/

/-- Challenge entry stored by the secure-mode server's /getChallenge. -/
structure P0Challenge where
  code : List ℕ
  expiry : ℤ
  used : Bool
  createdAt : ℤ
deriving DecidableEq, Repr

/-- Session entry stored by the secure-mode server on a normal approval. -/
structure Session where
  deviceId : String
  status : String
  riskScore : Risk
  motion : ℚ
  touch : ℚ
  pattern : ℚ
  expiry : ℤ
  createdAt : ℤ
  nonce : String
deriving DecidableEq, Repr

/-- The secure-mode server's process-wide counters (the `stats` object). -/
structure Stats where
  totalChallenges : ℕ
  totalAttestations : ℕ
  successfulAttestations : ℕ
  failedAttestations : ℕ
  panicModeActivations : ℕ
  totalVerifications : ℕ
deriving DecidableEq, Repr

/-- In-memory state of the secure-mode server. -/
structure P0State where
  challenges : String → Option P0Challenge
  sessions : String → Option Session
  stats : Stats

/-- Request body of POST /attest; all four fields may be absent. -/
structure AttestReq where
  nonce : Option String
  deviceId : Option String
  userResponse : Option (List ℕ)
  biometricData : Option BioData
deriving DecidableEq, Repr

/-- One constructor per `res.json` site in the /attest handler. -/
inductive AttestResult where
  | missingFields
  | invalidNonce
  | replay
  | expired
  | panicApproved (sessionToken : String) (riskScore : Risk)
  | badBioFormat
  | approved (sessionToken : String) (riskScore : Risk) (expiry : ℤ)
  | denied (reasons : List String)
deriving DecidableEq, Repr

/-- The JSON keys of the response object each /attest outcome sends,
read off the `res.json({...})` literals in the source. -/
def attestFields : AttestResult → List String
  | .missingFields => ["success", "error"]
  | .invalidNonce => ["success", "error"]
  | .replay => ["success", "error"]
  | .expired => ["success", "error"]
  | .panicApproved _ _ => ["success", "sessionToken", "verdict", "riskScore"]
  | .badBioFormat => ["success", "error"]
  | .approved _ _ _ => ["success", "sessionToken", "verdict", "riskScore", "expiry"]
  | .denied _ => ["success", "error", "reasons"]

/-- The `verdict` string each /attest outcome carries, when present. -/
def attestVerdict : AttestResult → Option String
  | .panicApproved _ _ => some "APPROVED_SILENT_ALARM"
  | .approved _ _ _ => some "APPROVED"
  | _ => none

/-- Is the /attest outcome a normal (non-panic) approval? -/
def isApprovedP0 : AttestResult → Bool
  | .approved _ _ _ => true
  | _ => false

/-- Is the /attest outcome the silent-alarm approval? -/
def isPanicP0 : AttestResult → Bool
  | .panicApproved _ _ => true
  | _ => false

/-- Did the /attest outcome consume (mark used and delete) the nonce?  These
are exactly the outcomes of the region after step E of the handler. -/
def p0consumes : AttestResult → Bool
  | .panicApproved _ _ => true
  | .badBioFormat => true
  | .approved _ _ _ => true
  | .denied _ => true
  | _ => false

/-- The part of /attest after the nonce has been consumed (steps F–J of the
source): panic-code check, biometric type validation, threshold decision,
risk scoring and session minting.  `rnd` stands for the hex string produced
by `crypto.randomBytes(24).toString('hex')` on this call. -/
def attestDecide (challengeData : P0Challenge) (nonce deviceId : String)
    (userResponse : List ℕ) (bio : BioData) (now : ℤ) (rnd : String)
    (sessions : String → Option Session) (stats : Stats) :
    AttestResult × (String → Option Session) × Stats :=
  let serverCode := joinDigits challengeData.code
  let userCode := joinDigits userResponse
  let panicCode := joinDigits challengeData.code.reverse
  if userCode = panicCode then
    (.panicApproved ("DURESS_" ++ rnd) .CRITICAL, sessions,
     { stats with panicModeActivations := stats.panicModeActivations + 1 })
  else
    match bio.motion, bio.touch, bio.pattern with
    | some motion, some touch, some pat =>
      let sensorsActive := sensorsActiveCount motion touch pat
      if userCode = serverCode ∧ sensorsActive ≥ 2 then
        let validToken := "VALID_" ++ rnd
        let tokenExpiry := now + 5 * 60 * 1000
        let avgScore := (motion + touch + pat) / 3
        let riskScore := classifyRisk avgScore
        (.approved validToken riskScore tokenExpiry,
         mapInsert sessions validToken
           ⟨deviceId, "VERIFIED", riskScore, motion, touch, pat, tokenExpiry, now, nonce⟩,
         { stats with totalAttestations := stats.totalAttestations + 1,
                      successfulAttestations := stats.successfulAttestations + 1 })
      else
        let reasons :=
          (if userCode = serverCode then [] else ["Wrong code"]) ++
          (if motion > (0.15 : ℚ) then [] else ["No motion"]) ++
          (if touch > (0.15 : ℚ) then [] else ["No touch"]) ++
          (if pat > (0.10 : ℚ) then [] else ["No pattern"])
        (.denied reasons, sessions,
         { stats with failedAttestations := stats.failedAttestations + 1 })
    | _, _, _ =>
      (.badBioFormat, sessions,
       { stats with failedAttestations := stats.failedAttestations + 1 })

/-- POST /attest of the secure-mode server: field presence, nonce lookup,
replay check, expiry check, consumption, then `attestDecide`. -/
def attest (st : P0State) (req : AttestReq) (now : ℤ) (rnd : String) :
    AttestResult × P0State :=
  match req.nonce, req.deviceId, req.userResponse, req.biometricData with
  | some nonce, some deviceId, some userResponse, some bio =>
    match st.challenges nonce with
    | none => (.invalidNonce, st)
    | some challengeData =>
      if challengeData.used then
        (.replay, { st with stats :=
          { st.stats with failedAttestations := st.stats.failedAttestations + 1 } })
      else if challengeData.expiry < now then
        (.expired, { st with
          challenges := mapDelete st.challenges nonce,
          stats := { st.stats with failedAttestations := st.stats.failedAttestations + 1 } })
      else
        let marked := mapInsert st.challenges nonce { challengeData with used := true }
        let challenges1 := mapDelete marked nonce
        let out := attestDecide challengeData nonce deviceId userResponse bio now rnd
          st.sessions st.stats
        (out.1, ⟨challenges1, out.2.1, out.2.2⟩)
  | _, _, _, _ => (.missingFields, st)

/-- Outcome of POST /verify (session-token validation) of the secure-mode server. -/
inductive SessionCheck where
  | missingToken
  | invalid
  | expired
  | valid (riskScore : Risk) (deviceId : String) (verifiedAt : ℤ) (expiresAt : ℤ)
deriving DecidableEq, Repr

/-- POST /verify of the secure-mode server: validate a session token.  A JS
falsy token (`undefined` or the empty string) is rejected as missing. -/
def p0verify (sessions : String → Option Session) (sessionToken : Option String)
    (now : ℤ) : SessionCheck × (String → Option Session) :=
  match sessionToken with
  | none => (.missingToken, sessions)
  | some tok =>
    if tok = "" then (.missingToken, sessions)
    else
      match sessions tok with
      | none => (.invalid, sessions)
      | some session =>
        if session.expiry < now then
          (.expired, mapDelete sessions tok)
        else
          (.valid session.riskScore session.deviceId session.createdAt session.expiry,
           sessions)

/-! ## v3 production server (`src/server.js`) -/

/-- A row of the `clients` table.  `expiresAt` is a nullable column. -/
structure Client where
  apiKey : String
  name : String
  plan : String
  status : String
  createdAt : ℤ
  expiresAt : Option ℤ
  monthlyLimit : ℕ
  usedThisMonth : ℕ
  lastResetMonth : String
  totalVerifications : ℕ
deriving DecidableEq, Repr

/-- JS numeric coercion of a nullable integer column (`null` compares as 0). -/
def jsNum : Option ℤ → ℤ
  | none => 0
  | some t => t

/-- JS truthiness of a nullable integer column. -/
def jsTruthy : Option ℤ → Bool
  | none => false
  | some t => t != 0

/-- `checkMonthlyReset(client)`: lazily zero the usage counter when the
observed calendar year-month differs from `last_reset_month`. -/
def checkMonthlyReset (client : Client) (thisMonth : String) : Client :=
  if client.lastResetMonth ≠ thisMonth then
    { client with usedThisMonth := 0, lastResetMonth := thisMonth }
  else client

/-- The success-path database update of /api/v1/verify: `used_this_month + 1`,
`total_verifications + 1`, all other columns written back unchanged. -/
def recordUsage (client : Client) : Client :=
  { client with usedThisMonth := client.usedThisMonth + 1,
                totalVerifications := client.totalVerifications + 1 }

/-- Outcome of the `validateApiKey` middleware (the admit gate). -/
inductive AdmitResult where
  | noApiKey
  | invalidKey
  | accountStatus (status : String)
  | subscriptionExpired
  | limitReached
  | ok
deriving DecidableEq, Repr

/-- The per-client portion of `validateApiKey`, after the key has been looked
up: status check, expiry check (auto-marking `expired`), lazy monthly reset,
monthly-limit check.  Returns the outcome and the client as (possibly)
rewritten in the database. -/
def admitClient (client : Client) (now : ℤ) (thisMonth : String) :
    AdmitResult × Client :=
  if client.status ≠ "active" then
    (.accountStatus client.status, client)
  else if jsTruthy client.expiresAt ∧ jsNum client.expiresAt < now then
    (.subscriptionExpired, { client with status := "expired" })
  else
    let client := checkMonthlyReset client thisMonth
    if 0 < client.monthlyLimit ∧ client.monthlyLimit ≤ client.usedThisMonth then
      (.limitReached, client)
    else
      (.ok, client)

/-- `validateApiKey`: key presence, lookup, then `admitClient`. -/
def validateApiKey (apiKey : Option String) (getClient : String → Option Client)
    (now : ℤ) (thisMonth : String) : AdmitResult × Option Client :=
  match apiKey with
  | none => (.noApiKey, none)
  | some key =>
    match getClient key with
    | none => (.invalidKey, none)
    | some client =>
      let out := admitClient client now thisMonth
      (out.1, some out.2)

/-- Challenge entry stored by /api/v1/challenge of the v3 server. -/
structure V3Challenge where
  code : List ℕ
  expiry : ℤ
  used : Bool
  createdAt : ℤ
  apiKey : String
  clientName : String
deriving DecidableEq, Repr

/-- Request body of POST /api/v1/verify. -/
structure V3Request where
  nonce : Option String
  userResponse : Option (List ℕ)
  biometricData : Option BioData
deriving DecidableEq, Repr

/-- One constructor per `res.json` site in the /api/v1/verify handler. -/
inductive V3VerifyResult where
  | missingFields
  | invalidNonce
  | ownerMismatch
  | replay
  | expired
  | approved (riskScore : Risk) (clientName : String)
  | denied (reasons : List String)
deriving DecidableEq, Repr

/-- Is the v3 verify outcome an approval? -/
def isApprovedV3 : V3VerifyResult → Bool
  | .approved _ _ => true
  | _ => false

/-- Did the v3 verify outcome consume the nonce, i.e. reach the region after
`challengeData.used = true; activeChallenges.delete(nonce)`?  In v3 these are
exactly the approval and the normal denial. -/
def v3consumes : V3VerifyResult → Bool
  | .approved _ _ => true
  | .denied _ => true
  | _ => false

/-- Replay/lifecycle-class outcomes of v3 verify (§7 of the specification
groups invalid nonce, already-used nonce, expired nonce and owner mismatch
into one taxon). -/
def replayInvalid : V3VerifyResult → Bool
  | .invalidNonce => true
  | .ownerMismatch => true
  | .replay => true
  | .expired => true
  | _ => false

/-- The part of /api/v1/verify after the nonce has been consumed: code
comparison (biometric fields defaulting to 0), thresholds, decision, risk
scoring, and for a success the second `checkMonthlyReset` plus the usage
update.  v3 mints no session token. -/
def v3decide (challengeData : V3Challenge) (client : Client)
    (userResponse : List ℕ) (bio : BioData) (thisMonth : String) :
    V3VerifyResult × Client :=
  let serverCode := joinDigits challengeData.code
  let userCode := joinDigits userResponse
  let motion := bio.motion.getD 0
  let touch := bio.touch.getD 0
  let pat := bio.pattern.getD 0
  let sensorsActive := sensorsActiveCount motion touch pat
  if userCode = serverCode ∧ sensorsActive ≥ 1 then
    let avgScore := (motion + touch + pat) / 3
    let riskScore := classifyRisk avgScore
    (.approved riskScore client.name, recordUsage (checkMonthlyReset client thisMonth))
  else
    let reasons :=
      (if userCode = serverCode then [] else ["Wrong code"]) ++
      (if motion > (0.15 : ℚ) then [] else ["No motion"]) ++
      (if touch > (0.15 : ℚ) then [] else ["No touch"]) ++
      (if pat > (0.10 : ℚ) then [] else ["No pattern"])
    (.denied reasons, client)

/-- Result record of one /api/v1/verify call: its outcome plus the state it
leaves behind (challenge map, session map — which v3 never writes — and the
caller's client row). -/
structure V3Out where
  result : V3VerifyResult
  challenges : String → Option V3Challenge
  sessions : String → Option Session
  client : Client

/-- POST /api/v1/verify of the v3 server (the caller's client row has already
passed `validateApiKey`): field presence, nonce lookup, owner check, replay
check, expiry check (deleting the entry), consumption, then `v3decide`. -/
def v3verify (challenges : String → Option V3Challenge)
    (sessions : String → Option Session) (client : Client) (req : V3Request)
    (now : ℤ) (thisMonth : String) : V3Out :=
  match req.nonce, req.userResponse, req.biometricData with
  | some nonce, some userResponse, some bio =>
    match challenges nonce with
    | none => ⟨.invalidNonce, challenges, sessions, client⟩
    | some challengeData =>
      if challengeData.apiKey ≠ client.apiKey then
        ⟨.ownerMismatch, challenges, sessions, client⟩
      else if challengeData.used then
        ⟨.replay, challenges, sessions, client⟩
      else if challengeData.expiry < now then
        ⟨.expired, mapDelete challenges nonce, sessions, client⟩
      else
        let marked := mapInsert challenges nonce { challengeData with used := true }
        let challenges1 := mapDelete marked nonce
        let out := v3decide challengeData client userResponse bio thisMonth
        ⟨out.1, challenges1, sessions, out.2⟩
  | _, _, _ => ⟨.missingFields, challenges, sessions, client⟩

/-- Run a sequence of /api/v1/verify calls, threading the challenge and
session stores; each call brings its own admitted client, clock reading and
calendar month. -/
def v3verifyRun (challenges : String → Option V3Challenge)
    (sessions : String → Option Session) :
    List (Client × V3Request × ℤ × String) → List V3VerifyResult
  | [] => []
  | (client, req, now, m) :: rest =>
    let out := v3verify challenges sessions client req now m
    out.result :: v3verifyRun out.challenges out.sessions rest

/-- Number of consuming outcomes (approval or normal denial) in a result list. -/
def countConsuming (l : List V3VerifyResult) : ℕ :=
  (l.filter v3consumes).length

/-- Well-formedness of one queued verify call for nonce `n`: it presents that
nonce and all required fields. -/
def wfReq (n : String) (t : Client × V3Request × ℤ × String) : Bool :=
  t.2.1.nonce == some n && t.2.1.userResponse.isSome && t.2.1.biometricData.isSome

/-- The `durationDays || 30` default of /admin/clients/renew (0 is falsy). -/
def renewDays : Option ℕ → ℕ
  | none => 30
  | some d => if d = 0 then 30 else d

/-- POST /admin/clients/renew applied to an existing client row:
`baseTime = expires_at > now ? expires_at : now`, new expiry
`baseTime + days*86400000`, status written back as 'active', the three
counters written back unchanged. -/
def renewClient (client : Client) (now : ℤ) (durationDays : Option ℕ) : Client :=
  let days := renewDays durationDays
  let baseTime := if jsNum client.expiresAt > now then jsNum client.expiresAt else now
  let newExpiry := baseTime + (days : ℤ) * 86400000
  { client with status := "active", expiresAt := some newExpiry }

/-- One tenant-visible step of the verify flow: the admit gate, then — when the
gate passes and the attestation succeeds — the success-path reset and usage
update.  `m1`/`m2` are the months observed by the two `new Date()` calls. -/
def tenantStep (client : Client) (now : ℤ) (m1 m2 : String) (success : Bool) :
    Client :=
  match admitClient client now m1 with
  | (.ok, c1) => if success then recordUsage (checkMonthlyReset c1 m2) else c1
  | (_, c1) => c1

/-- Fold `tenantStep` over a trace of verify attempts. -/
def tenantRun (client : Client) :
    List (ℤ × String × String × Bool) → Client
  | [] => client
  | (now, m1, m2, s) :: rest => tenantRun (tenantStep client now m1 m2 s) rest

/-! ## Concrete fixtures for witnesses and counterexamples -/

/-- The empty string-keyed map. -/
def emptyMap {α : Type} : String → Option α := fun _ => none

/-- A pending secure-mode challenge with code 1-2-3, expiring at time 100. -/
def wch : P0Challenge := ⟨[1, 2, 3], 100, false, 0⟩

/-- Secure-mode server state holding only the challenge `wch` under nonce n1. -/
def wst : P0State := ⟨mapInsert emptyMap "n1" wch, emptyMap, ⟨0, 0, 0, 0, 0, 0⟩⟩

/-- /attest request answering `wch` with the reversed code (the panic code). -/
def wreqPanic : AttestReq :=
  ⟨some "n1", some "d", some [3, 2, 1], some ⟨some 0.5, some 0.5, some 0.5⟩⟩

/-- /attest request answering `wch` with the correct code and strong sensors. -/
def wreqNormal : AttestReq :=
  ⟨some "n1", some "d", some [1, 2, 3], some ⟨some 0.5, some 0.5, some 0.5⟩⟩

/-- /attest request answering `wch` with the correct code but only the motion
sensor above threshold. -/
def wreqOneSensor : AttestReq :=
  ⟨some "n1", some "d", some [1, 2, 3], some ⟨some 0.5, some 0, some 0⟩⟩

/-- A v3 client row: active, limit 5000, unexpired at the times used below. -/
def wclient : Client :=
  ⟨"k1", "Acme", "starter", "active", 0, some 1000000, 5000, 0, "2026-9", 0⟩

/-- `wclient` with its monthly quota fully consumed. -/
def wclientFull : Client :=
  ⟨"k1", "Acme", "starter", "active", 0, some 1000000, 5000, 5000, "2026-9", 0⟩

/-- A pending v3 challenge owned by `wclient`, expiring at time 100. -/
def wcd : V3Challenge := ⟨[4, 1, 9], 100, false, 0, "k1", "Acme"⟩

/-- v3 challenge store holding only `wcd` under nonce n1. -/
def wv3challenges : String → Option V3Challenge := mapInsert emptyMap "n1" wcd

/-- /api/v1/verify request answering `wcd` correctly with strong sensors. -/
def wv3req : V3Request := ⟨some "n1", some [4, 1, 9], some ⟨some 0.5, some 0.5, some 0.5⟩⟩

/-- Two identical well-formed verify calls racing on nonce n1. -/
def wreqs : List (Client × V3Request × ℤ × String) :=
  [(wclient, wv3req, 50, "2026-9"), (wclient, wv3req, 50, "2026-9")]

/-- A stored session for token t1, expiring at time 100. -/
def wsession : Session := ⟨"d", "VERIFIED", .LOW, 1, 1, 1, 100, 0, "n1"⟩

/-- Session store holding only `wsession` under token t1. -/
def wsessions : String → Option Session := mapInsert emptyMap "t1" wsession

/-! ## Helper lemmas -/

@[simp] theorem mapInsert_same {α : Type} (m : String → Option α) (k : String) (v : α) :
    mapInsert m k v k = some v := by
  simp [mapInsert]

@[simp] theorem mapDelete_same {α : Type} (m : String → Option α) (k : String) :
    mapDelete m k k = none := by
  simp [mapDelete]

theorem mapInsert_other {α : Type} (m : String → Option α) (k x : String) (v : α)
    (h : x ≠ k) : mapInsert m k v x = m x := by
  simp [mapInsert, h]

theorem mapDelete_other {α : Type} (m : String → Option α) (k x : String)
    (h : x ≠ k) : mapDelete m k x = m x := by
  simp [mapDelete, h]

theorem attest_consume_eq (st : P0State) (req : AttestReq) (now : ℤ) (rnd : String)
    (n d : String) (u : List ℕ) (bio : BioData) (ch : P0Challenge)
    (hn : req.nonce = some n) (hd : req.deviceId = some d)
    (hu : req.userResponse = some u) (hb : req.biometricData = some bio)
    (hc : st.challenges n = some ch) (hused : ch.used = false)
    (hexp : ¬ ch.expiry < now) :
    attest st req now rnd =
      ((attestDecide ch n d u bio now rnd st.sessions st.stats).1,
       ⟨mapDelete (mapInsert st.challenges n { ch with used := true }) n,
        (attestDecide ch n d u bio now rnd st.sessions st.stats).2.1,
        (attestDecide ch n d u bio now rnd st.sessions st.stats).2.2⟩) := by
  simp only [attest, hn, hd, hu, hb, hc]
  rw [if_neg (by simp [hused]), if_neg hexp]

theorem v3verify_consume_eq (challenges : String → Option V3Challenge)
    (sessions : String → Option Session) (client : Client) (req : V3Request)
    (now : ℤ) (m n : String) (u : List ℕ) (bio : BioData) (cd : V3Challenge)
    (hn : req.nonce = some n) (hu : req.userResponse = some u)
    (hb : req.biometricData = some bio) (hc : challenges n = some cd)
    (howner : cd.apiKey = client.apiKey) (hused : cd.used = false)
    (hexp : ¬ cd.expiry < now) :
    v3verify challenges sessions client req now m =
      ⟨(v3decide cd client u bio m).1,
       mapDelete (mapInsert challenges n { cd with used := true }) n,
       sessions, (v3decide cd client u bio m).2⟩ := by
  simp only [v3verify, hn, hu, hb, hc]
  rw [if_neg (by simp [howner]), if_neg (by simp [hused]), if_neg hexp]

theorem attest_approved_sessions (st : P0State) (req : AttestReq) (now : ℤ)
    (rnd : String) (tok : String) (risk : Risk) (e : ℤ)
    (happ : (attest st req now rnd).1 = .approved tok risk e) :
    tok = "VALID_" ++ rnd ∧ e = now + 5 * 60 * 1000
    ∧ ∃ s : Session, (attest st req now rnd).2.sessions tok = some s
        ∧ s.riskScore = risk ∧ s.expiry = e ∧ s.createdAt = now := by
  rcases req with ⟨rn, rd, ru, rb⟩
  cases rn with
  | none => simp [attest] at happ
  | some n =>
  cases rd with
  | none => simp [attest] at happ
  | some d =>
  cases ru with
  | none => simp [attest] at happ
  | some u =>
  cases rb with
  | none => simp [attest] at happ
  | some bio =>
  cases hch : st.challenges n with
  | none => simp [attest, hch] at happ
  | some ch =>
  cases hus : ch.used with
  | true => simp [attest, hch, hus] at happ
  | false =>
  by_cases hex : ch.expiry < now
  · simp [attest, hch, hus, hex] at happ
  · rw [attest_consume_eq st ⟨some n, some d, some u, some bio⟩ now rnd n d u bio ch
      rfl rfl rfl rfl hch hus hex] at happ ⊢
    simp only [attestDecide] at happ ⊢
    by_cases hpc : joinDigits u = joinDigits ch.code.reverse
    · simp [hpc] at happ
    · rw [if_neg hpc] at happ ⊢
      rcases bio with ⟨bm, bt, bp⟩
      cases bm with
      | none => simp at happ
      | some mv =>
      cases bt with
      | none => simp at happ
      | some tv =>
      cases bp with
      | none => simp at happ
      | some pv =>
      simp only at happ ⊢
      by_cases hcond : joinDigits u = joinDigits ch.code
        ∧ sensorsActiveCount mv tv pv ≥ 2
      · rw [if_pos hcond] at happ ⊢
        obtain ⟨htok, hrisk, he⟩ := AttestResult.approved.injEq .. ▸ happ
        subst htok
        subst hrisk
        subst he
        exact ⟨rfl, rfl, ⟨d, "VERIFIED", classifyRisk ((mv + tv + pv) / 3), mv, tv, pv,
          now + 5 * 60 * 1000, now, n⟩, by simp [mapInsert], rfl, rfl, rfl⟩
      · rw [if_neg hcond] at happ
        simp at happ

theorem attest_sessions_only_on_approval (st : P0State) (req : AttestReq)
    (now : ℤ) (rnd : String) (tok : String)
    (hch : (attest st req now rnd).2.sessions tok ≠ st.sessions tok) :
    ∃ r ex, (attest st req now rnd).1 = .approved tok r ex := by
  rcases req with ⟨rn, rd, ru, rb⟩
  cases rn with
  | none => simp [attest] at hch
  | some n =>
  cases rd with
  | none => simp [attest] at hch
  | some d =>
  cases ru with
  | none => simp [attest] at hch
  | some u =>
  cases rb with
  | none => simp [attest] at hch
  | some bio =>
  cases hc : st.challenges n with
  | none => simp [attest, hc] at hch
  | some ch =>
  cases hus : ch.used with
  | true => simp [attest, hc, hus] at hch
  | false =>
  by_cases hex : ch.expiry < now
  · simp [attest, hc, hus, hex] at hch
  · rw [attest_consume_eq st ⟨some n, some d, some u, some bio⟩ now rnd n d u bio ch
      rfl rfl rfl rfl hc hus hex] at hch ⊢
    simp only [attestDecide] at hch ⊢
    by_cases hpc : joinDigits u = joinDigits ch.code.reverse
    · simp [hpc] at hch
    · rw [if_neg hpc] at hch ⊢
      rcases bio with ⟨bm, bt, bp⟩
      cases bm with
      | none => simp at hch
      | some mv =>
      cases bt with
      | none => simp at hch
      | some tv =>
      cases bp with
      | none => simp at hch
      | some pv =>
      simp only at hch ⊢
      by_cases hcond : joinDigits u = joinDigits ch.code
        ∧ sensorsActiveCount mv tv pv ≥ 2
      · rw [if_pos hcond] at hch ⊢
        by_cases htok : tok = "VALID_" ++ rnd
        · exact ⟨_, _, by rw [htok]⟩
        · exact absurd (mapInsert_other st.sessions ("VALID_" ++ rnd) tok _ htok) hch
      · rw [if_neg hcond] at hch
        exact absurd rfl hch

theorem valid_token_ne_empty (rnd : String) : ("VALID_" ++ rnd) ≠ "" := by
  intro h
  have hl := congrArg String.length h
  rw [String.length_append] at hl
  have h6 : ("VALID_" : String).length = 6 := rfl
  have h0 : ("" : String).length = 0 := rfl
  omega

theorem v3verify_client_effect (challenges : String → Option V3Challenge)
    (sessions : String → Option Session) (client : Client) (vreq : V3Request)
    (vnow : ℤ) (vm : String) :
    (v3verify challenges sessions client vreq vnow vm).sessions = sessions
    ∧ (isApprovedV3 (v3verify challenges sessions client vreq vnow vm).result = true →
        (v3verify challenges sessions client vreq vnow vm).client
          = recordUsage (checkMonthlyReset client vm))
    ∧ (isApprovedV3 (v3verify challenges sessions client vreq vnow vm).result = false →
        (v3verify challenges sessions client vreq vnow vm).client = client) := by
  rcases vreq with ⟨vn, vu, vb⟩
  cases vn with
  | none => exact ⟨rfl, fun h => by simp [v3verify, isApprovedV3] at h, fun _ => rfl⟩
  | some nn =>
  cases vu with
  | none => exact ⟨rfl, fun h => by simp [v3verify, isApprovedV3] at h, fun _ => rfl⟩
  | some uu =>
  cases vb with
  | none => exact ⟨rfl, fun h => by simp [v3verify, isApprovedV3] at h, fun _ => rfl⟩
  | some bb =>
  cases hcc : challenges nn with
  | none =>
    refine ⟨by simp [v3verify, hcc], fun h => ?_, fun _ => by simp [v3verify, hcc]⟩
    simp [v3verify, hcc, isApprovedV3] at h
  | some cd2 =>
  by_cases ho : cd2.apiKey ≠ client.apiKey
  · refine ⟨?_, fun h => ?_, fun _ => ?_⟩ <;>
      simp [v3verify, hcc, if_pos ho, isApprovedV3] at * <;> rfl
  · cases husd : cd2.used with
    | true =>
      refine ⟨?_, fun h => ?_, fun _ => ?_⟩ <;>
        simp [v3verify, hcc, ho, husd, isApprovedV3] at * <;> rfl
    | false =>
      by_cases hexx : cd2.expiry < vnow
      · refine ⟨?_, fun h => ?_, fun _ => ?_⟩ <;>
          simp [v3verify, hcc, ho, husd, hexx, isApprovedV3] at * <;> rfl
      · rw [v3verify_consume_eq challenges sessions client ⟨some nn, some uu, some bb⟩
          vnow vm nn uu bb cd2 rfl rfl rfl hcc (not_not.mp ho) husd hexx]
        simp only [v3decide]
        by_cases hcnd : joinDigits uu = joinDigits cd2.code
          ∧ sensorsActiveCount (bb.motion.getD 0) (bb.touch.getD 0) (bb.pattern.getD 0) ≥ 1
        · rw [if_pos hcnd]
          exact ⟨by trivial, fun _ => rfl, fun h => by simp [isApprovedV3] at h⟩
        · rw [if_neg hcnd]
          exact ⟨by trivial, fun h => by simp [isApprovedV3] at h, fun _ => rfl⟩

theorem checkMonthlyReset_monthlyLimit (c : Client) (m : String) :
    (checkMonthlyReset c m).monthlyLimit = c.monthlyLimit := by
  simp only [checkMonthlyReset]
  split_ifs <;> rfl

theorem checkMonthlyReset_used_le (c : Client) (m : String) :
    (checkMonthlyReset c m).usedThisMonth ≤ c.usedThisMonth := by
  simp only [checkMonthlyReset]
  split_ifs <;> simp

theorem admitClient_monthlyLimit (c : Client) (now : ℤ) (m : String) :
    (admitClient c now m).2.monthlyLimit = c.monthlyLimit := by
  simp only [admitClient, checkMonthlyReset]
  split_ifs <;> simp

theorem admitClient_used_le (c : Client) (now : ℤ) (m : String) :
    (admitClient c now m).2.usedThisMonth ≤ c.usedThisMonth := by
  simp only [admitClient, checkMonthlyReset]
  split_ifs <;> simp

theorem admitClient_ok_used (c : Client) (now : ℤ) (m : String)
    (h : (admitClient c now m).1 = .ok) :
    c.monthlyLimit = 0 ∨ (admitClient c now m).2.usedThisMonth < c.monthlyLimit := by
  have hl := checkMonthlyReset_monthlyLimit c m
  simp only [admitClient] at h ⊢
  split_ifs at h ⊢ with h1 h2 h3
  show c.monthlyLimit = 0 ∨ (checkMonthlyReset c m).usedThisMonth < c.monthlyLimit
  rw [not_and_or] at h3
  rcases h3 with h3 | h3 <;> omega

theorem tenantStep_quota (c : Client) (now : ℤ) (m1 m2 : String) (success : Bool)
    (hinv : c.monthlyLimit ≠ 0 → c.usedThisMonth ≤ c.monthlyLimit) :
    (tenantStep c now m1 m2 success).monthlyLimit = c.monthlyLimit
    ∧ ((tenantStep c now m1 m2 success).monthlyLimit ≠ 0 →
       (tenantStep c now m1 m2 success).usedThisMonth
         ≤ (tenantStep c now m1 m2 success).monthlyLimit) := by
  have hlim0 := admitClient_monthlyLimit c now m1
  have huse0 := admitClient_used_le c now m1
  have hokl := admitClient_ok_used c now m1
  rcases hadm : admitClient c now m1 with ⟨res, c1⟩
  rw [hadm] at hlim0 huse0
  replace hlim0 : c1.monthlyLimit = c.monthlyLimit := hlim0
  replace huse0 : c1.usedThisMonth ≤ c.usedThisMonth := huse0
  have hbase : c.monthlyLimit ≠ 0 → c1.usedThisMonth ≤ c.monthlyLimit :=
    fun h0 => huse0.trans (hinv h0)
  cases res with
  | ok =>
    have hok1 : c.monthlyLimit = 0 ∨ c1.usedThisMonth < c.monthlyLimit := by
      have hx := hokl (by rw [hadm])
      rw [hadm] at hx
      exact hx
    cases success with
    | true =>
      have hts : tenantStep c now m1 m2 true = recordUsage (checkMonthlyReset c1 m2) := by
        simp [tenantStep, hadm]
      rw [hts]
      have h1 : (checkMonthlyReset c1 m2).monthlyLimit = c1.monthlyLimit :=
        checkMonthlyReset_monthlyLimit c1 m2
      have h2 : (checkMonthlyReset c1 m2).usedThisMonth ≤ c1.usedThisMonth :=
        checkMonthlyReset_used_le c1 m2
      have h3 : (recordUsage (checkMonthlyReset c1 m2)).monthlyLimit
          = (checkMonthlyReset c1 m2).monthlyLimit := rfl
      have h4 : (recordUsage (checkMonthlyReset c1 m2)).usedThisMonth
          = (checkMonthlyReset c1 m2).usedThisMonth + 1 := rfl
      constructor
      · rw [h3, h1, hlim0]
      · intro h0
        rw [h3, h1, hlim0] at h0 ⊢
        rw [h4]
        rcases hok1 with h | h
        · exact absurd h h0
        · omega
    | false =>
      have hts : tenantStep c now m1 m2 false = c1 := by
        simp [tenantStep, hadm]
      rw [hts]
      refine ⟨hlim0, fun h0 => ?_⟩
      rw [hlim0] at h0 ⊢
      exact hbase h0
  | noApiKey =>
    have hts : tenantStep c now m1 m2 success = c1 := by
      simp [tenantStep, hadm]
    rw [hts]
    refine ⟨hlim0, fun h0 => ?_⟩
    rw [hlim0] at h0 ⊢
    exact hbase h0
  | invalidKey =>
    have hts : tenantStep c now m1 m2 success = c1 := by
      simp [tenantStep, hadm]
    rw [hts]
    refine ⟨hlim0, fun h0 => ?_⟩
    rw [hlim0] at h0 ⊢
    exact hbase h0
  | accountStatus stx =>
    have hts : tenantStep c now m1 m2 success = c1 := by
      simp [tenantStep, hadm]
    rw [hts]
    refine ⟨hlim0, fun h0 => ?_⟩
    rw [hlim0] at h0 ⊢
    exact hbase h0
  | subscriptionExpired =>
    have hts : tenantStep c now m1 m2 success = c1 := by
      simp [tenantStep, hadm]
    rw [hts]
    refine ⟨hlim0, fun h0 => ?_⟩
    rw [hlim0] at h0 ⊢
    exact hbase h0
  | limitReached =>
    have hts : tenantStep c now m1 m2 success = c1 := by
      simp [tenantStep, hadm]
    rw [hts]
    refine ⟨hlim0, fun h0 => ?_⟩
    rw [hlim0] at h0 ⊢
    exact hbase h0

theorem tenantRun_quota (l : List (ℤ × String × String × Bool)) (c : Client)
    (hinv : c.monthlyLimit ≠ 0 → c.usedThisMonth ≤ c.monthlyLimit) :
    (tenantRun c l).monthlyLimit = c.monthlyLimit
    ∧ ((tenantRun c l).monthlyLimit ≠ 0 →
       (tenantRun c l).usedThisMonth ≤ (tenantRun c l).monthlyLimit) := by
  induction l generalizing c with
  | nil => exact ⟨rfl, hinv⟩
  | cons t rest ih =>
    rcases t with ⟨now, m1, m2, success⟩
    have hstep := tenantStep_quota c now m1 m2 success hinv
    have hrest := ih (tenantStep c now m1 m2 success)
      (fun h => hstep.2 (hstep.1 ▸ h))
    refine ⟨?_, ?_⟩
    · show (tenantRun (tenantStep c now m1 m2 success) rest).monthlyLimit = c.monthlyLimit
      rw [hrest.1, hstep.1]
    · show (tenantRun (tenantStep c now m1 m2 success) rest).monthlyLimit ≠ 0 →
        (tenantRun (tenantStep c now m1 m2 success) rest).usedThisMonth
          ≤ (tenantRun (tenantStep c now m1 m2 success) rest).monthlyLimit
      exact hrest.2

theorem countConsuming_cons (r : V3VerifyResult) (l : List V3VerifyResult) :
    countConsuming (r :: l) = (if v3consumes r = true then 1 else 0) + countConsuming l := by
  simp only [countConsuming, List.filter_cons]
  split_ifs <;> simp [Nat.add_comm]

theorem wfReq_fields (n : String) (t : Client × V3Request × ℤ × String)
    (h : wfReq n t = true) :
    t.2.1.nonce = some n ∧ t.2.1.userResponse.isSome = true
      ∧ t.2.1.biometricData.isSome = true := by
  simp only [wfReq, Bool.and_eq_true, beq_iff_eq] at h
  exact ⟨h.1.1, h.1.2, h.2⟩

theorem v3decide_consumes (cd : V3Challenge) (client : Client) (u : List ℕ)
    (bio : BioData) (m : String) :
    v3consumes (v3decide cd client u bio m).1 = true := by
  simp only [v3decide]
  split_ifs <;> rfl

theorem v3verify_absent (challenges : String → Option V3Challenge)
    (sessions : String → Option Session) (client : Client) (req : V3Request)
    (now : ℤ) (m n : String)
    (hn : req.nonce = some n) (hu : req.userResponse.isSome = true)
    (hb : req.biometricData.isSome = true) (h : challenges n = none) :
    v3verify challenges sessions client req now m
      = ⟨.invalidNonce, challenges, sessions, client⟩ := by
  obtain ⟨u, hu⟩ := Option.isSome_iff_exists.mp hu
  obtain ⟨b, hb⟩ := Option.isSome_iff_exists.mp hb
  simp [v3verify, hn, hu, hb, h]

theorem v3verify_classify (challenges : String → Option V3Challenge)
    (sessions : String → Option Session) (client : Client) (req : V3Request)
    (now : ℤ) (m n : String)
    (hn : req.nonce = some n) (hu : req.userResponse.isSome = true)
    (hb : req.biometricData.isSome = true) :
    v3consumes (v3verify challenges sessions client req now m).result = true
      ∨ replayInvalid (v3verify challenges sessions client req now m).result = true := by
  obtain ⟨u, hu⟩ := Option.isSome_iff_exists.mp hu
  obtain ⟨b, hb⟩ := Option.isSome_iff_exists.mp hb
  cases hch : challenges n with
  | none =>
    rw [v3verify_absent challenges sessions client req now m n hn
      (by simp [hu]) (by simp [hb]) hch]
    right
    rfl
  | some cd =>
    simp only [v3verify, hn, hu, hb, hch]
    split_ifs
    · right; rfl
    · right; rfl
    · right; rfl
    · left
      exact v3decide_consumes cd client u b m

theorem v3verify_consumes_deletes (challenges : String → Option V3Challenge)
    (sessions : String → Option Session) (client : Client) (req : V3Request)
    (now : ℤ) (m n : String) (hn : req.nonce = some n)
    (hc : v3consumes (v3verify challenges sessions client req now m).result = true) :
    (v3verify challenges sessions client req now m).challenges n = none := by
  rcases req with ⟨rn, ru, rb⟩
  cases rn with
  | none => simp [v3verify, v3consumes] at hc
  | some nn =>
  injection hn with hn
  subst hn
  cases ru with
  | none => simp [v3verify, v3consumes] at hc
  | some u =>
  cases rb with
  | none => simp [v3verify, v3consumes] at hc
  | some b =>
  cases hch : challenges nn with
  | none => simp [v3verify, hch, v3consumes] at hc
  | some cd =>
  simp only [v3verify, hch] at hc ⊢
  split_ifs at hc ⊢ <;> try simp [v3consumes] at hc
  simp [mapDelete]

theorem attest_consumes_deletes (st : P0State) (req : AttestReq) (now : ℤ)
    (rnd n : String) (hn : req.nonce = some n)
    (hc : p0consumes (attest st req now rnd).1 = true) :
    (attest st req now rnd).2.challenges n = none := by
  rcases req with ⟨rn, rd, ru, rb⟩
  cases rn with
  | none => simp [attest, p0consumes] at hc
  | some nn =>
  injection hn with hn
  subst hn
  cases rd with
  | none => simp [attest, p0consumes] at hc
  | some d =>
  cases ru with
  | none => simp [attest, p0consumes] at hc
  | some u =>
  cases rb with
  | none => simp [attest, p0consumes] at hc
  | some b =>
  cases hch : st.challenges nn with
  | none => simp [attest, hch, p0consumes] at hc
  | some ch =>
  simp only [attest, hch] at hc ⊢
  split_ifs at hc ⊢ <;> try simp [p0consumes] at hc
  simp [mapDelete]

theorem attest_absent (st : P0State) (req : AttestReq) (now : ℤ) (rnd n d : String)
    (u : List ℕ) (bio : BioData)
    (hn : req.nonce = some n) (hd : req.deviceId = some d)
    (hu : req.userResponse = some u) (hb : req.biometricData = some bio)
    (h : st.challenges n = none) :
    (attest st req now rnd).1 = .invalidNonce := by
  simp [attest, hn, hd, hu, hb, h]

theorem v3verifyRun_absent (n : String) (challenges : String → Option V3Challenge)
    (sessions : String → Option Session)
    (reqs : List (Client × V3Request × ℤ × String))
    (hwf : reqs.all (wfReq n) = true) (h : challenges n = none) :
    countConsuming (v3verifyRun challenges sessions reqs) = 0 := by
  induction reqs generalizing challenges sessions with
  | nil => rfl
  | cons t rest ih =>
    rcases t with ⟨client, req, now, m⟩
    rw [List.all_cons, Bool.and_eq_true] at hwf
    obtain ⟨hn, hu, hb⟩ := wfReq_fields n _ hwf.1
    simp only [v3verifyRun]
    rw [v3verify_absent challenges sessions client req now m n hn hu hb h]
    rw [countConsuming_cons]
    simpa [v3consumes] using ih challenges sessions hwf.2 h

theorem v3verifyRun_count (n : String) (challenges : String → Option V3Challenge)
    (sessions : String → Option Session)
    (reqs : List (Client × V3Request × ℤ × String))
    (hwf : reqs.all (wfReq n) = true) :
    countConsuming (v3verifyRun challenges sessions reqs) ≤ 1 := by
  induction reqs generalizing challenges sessions with
  | nil => simp [v3verifyRun, countConsuming]
  | cons t rest ih =>
    rcases t with ⟨client, req, now, m⟩
    rw [List.all_cons, Bool.and_eq_true] at hwf
    obtain ⟨hn, _, _⟩ := wfReq_fields n _ hwf.1
    simp only [v3verifyRun]
    rw [countConsuming_cons]
    by_cases hcons : v3consumes (v3verify challenges sessions client req now m).result = true
    · rw [if_pos hcons]
      have hdel := v3verify_consumes_deletes challenges sessions client req now m n hn hcons
      have h0 := v3verifyRun_absent n
        (v3verify challenges sessions client req now m).challenges
        (v3verify challenges sessions client req now m).sessions rest hwf.2 hdel
      omega
    · rw [if_neg hcons]
      have := ih (v3verify challenges sessions client req now m).challenges
        (v3verify challenges sessions client req now m).sessions hwf.2
      omega

theorem v3verifyRun_classified (n : String) (challenges : String → Option V3Challenge)
    (sessions : String → Option Session)
    (reqs : List (Client × V3Request × ℤ × String))
    (hwf : reqs.all (wfReq n) = true) :
    ∀ r ∈ v3verifyRun challenges sessions reqs,
      v3consumes r = true ∨ replayInvalid r = true := by
  induction reqs generalizing challenges sessions with
  | nil =>
    intro r hr
    simp [v3verifyRun] at hr
  | cons t rest ih =>
    rcases t with ⟨client, req, now, m⟩
    rw [List.all_cons, Bool.and_eq_true] at hwf
    obtain ⟨hn, hu, hb⟩ := wfReq_fields n _ hwf.1
    intro r hr
    simp only [v3verifyRun, List.mem_cons] at hr
    rcases hr with hr | hr
    · rw [hr]
      exact v3verify_classify challenges sessions client req now m n hn hu hb
    · exact ih (v3verify challenges sessions client req now m).challenges
        (v3verify challenges sessions client req now m).sessions hwf.2 r hr

/-! ## Claim theorems -/

/-- C10: for every existing client record, /admin/clients/renew sets exactly
two fields — `status` is unconditionally written as 'active' (so a blocked or
expired tenant is silently reactivated) and `expiresAt` becomes
`max(now, current expiresAt) + durationDays * 86400000 ms` with the duration
defaulting to 30 days — while `usedThisMonth`, `lastResetMonth`,
`totalVerifications` (and every other column) are left unchanged. -/
theorem renew_frame_effect (client : Client) (now : ℤ) (durationDays : Option ℕ) :
    (renewClient client now durationDays).status = "active"
    ∧ (renewClient client now durationDays).expiresAt =
        some (max now (jsNum client.expiresAt) + (renewDays durationDays : ℤ) * 86400000)
    ∧ renewDays none = 30
    ∧ (renewClient client now durationDays).usedThisMonth = client.usedThisMonth
    ∧ (renewClient client now durationDays).lastResetMonth = client.lastResetMonth
    ∧ (renewClient client now durationDays).totalVerifications = client.totalVerifications
    ∧ (renewClient client now durationDays).apiKey = client.apiKey
    ∧ (renewClient client now durationDays).name = client.name
    ∧ (renewClient client now durationDays).plan = client.plan
    ∧ (renewClient client now durationDays).createdAt = client.createdAt
    ∧ (renewClient client now durationDays).monthlyLimit = client.monthlyLimit := by
  refine ⟨rfl, ?_, rfl, rfl, rfl, rfl, rfl, rfl, rfl, rfl, rfl⟩
  simp only [renewClient]
  congr 2
  rcases le_or_lt (jsNum client.expiresAt) now with h | h
  · rw [if_neg (by omega), max_eq_left h]
  · rw [if_pos h, max_eq_right h.le]

/-- C9: session validation on an absent token answers INVALID; on a present
but expired token it evicts the entry and answers EXPIRED (so validating the
same token again answers INVALID); INVALID and EXPIRED are the only negative
outcomes; and a live token yields its risk score, device id, issue time and
expiry. -/
theorem session_validation_outcomes (sessions : String → Option Session)
    (tok : String) (now : ℤ) (htok : tok ≠ "") :
    (sessions tok = none → p0verify sessions (some tok) now = (.invalid, sessions))
    ∧ (∀ s, sessions tok = some s → s.expiry < now →
        (p0verify sessions (some tok) now).1 = .expired
        ∧ (p0verify sessions (some tok) now).2 tok = none
        ∧ ∀ now2 : ℤ,
            (p0verify (p0verify sessions (some tok) now).2 (some tok) now2).1 = .invalid)
    ∧ (∀ s, sessions tok = some s → ¬ s.expiry < now →
        (p0verify sessions (some tok) now).1 =
          .valid s.riskScore s.deviceId s.createdAt s.expiry)
    ∧ ((p0verify sessions (some tok) now).1 = .invalid
        ∨ (p0verify sessions (some tok) now).1 = .expired
        ∨ ∃ r d va ex, (p0verify sessions (some tok) now).1 = .valid r d va ex) := by
  refine ⟨?_, ?_, ?_, ?_⟩
  · intro h
    simp [p0verify, htok, h]
  · intro s hs hexp
    refine ⟨?_, ?_, ?_⟩
    · simp [p0verify, htok, hs, hexp]
    · simp [p0verify, htok, hs, hexp]
    · intro now2
      simp [p0verify, htok, hs, hexp]
  · intro s hs hexp
    simp [p0verify, htok, hs, hexp]
  · simp only [p0verify, htok]
    cases hs : sessions tok with
    | none => simp
    | some s =>
      by_cases hexp : s.expiry < now
      · simp [htok, hexp]
      · simp [htok, hexp]

/-- C9 witness: validating an expired stored token at time 200 evicts it and
answers EXPIRED, and revalidating answers INVALID. -/
theorem session_validation_outcomes_witness :
    (p0verify wsessions (some "t1") 200).1 = .expired
    ∧ (p0verify wsessions (some "t1") 200).2 "t1" = none
    ∧ (p0verify (p0verify wsessions (some "t1") 200).2 (some "t1") 300).1 = .invalid := by
  have h := (session_validation_outcomes wsessions "t1" 200 (by decide)).2.1 wsession
    (by decide) (by decide)
  exact ⟨h.1, h.2.1, h.2.2 300⟩

/-- C2: for every /attest call that passes the nonce, used and expiry checks
(part_000 has no owner check — the owner condition is vacuous there), the
outcome is the panic approval — riskScore CRITICAL, a DURESS_-prefixed token,
the duress counter bumped while the normal-approval counters and the session
store stay untouched, with no biometric validation performed (`bio` is
arbitrary, even type-invalid) — exactly when the submitted digits joined equal
the stored digits reversed and joined; and since there is no palindrome
special-case, a correct response to a palindromic code takes the panic path. -/
theorem panic_path_iff_reversed_code
    (st : P0State) (req : AttestReq) (now : ℤ) (rnd : String)
    (n d : String) (u : List ℕ) (bio : BioData) (ch : P0Challenge)
    (hn : req.nonce = some n) (hd : req.deviceId = some d)
    (hu : req.userResponse = some u) (hb : req.biometricData = some bio)
    (hc : st.challenges n = some ch) (hused : ch.used = false)
    (hexp : ¬ ch.expiry < now) :
    ((attest st req now rnd).1 = .panicApproved ("DURESS_" ++ rnd) .CRITICAL
      ↔ joinDigits u = joinDigits ch.code.reverse)
    ∧ (joinDigits u = joinDigits ch.code.reverse →
        (attest st req now rnd).2.stats.panicModeActivations
            = st.stats.panicModeActivations + 1
        ∧ (attest st req now rnd).2.stats.successfulAttestations
            = st.stats.successfulAttestations
        ∧ (attest st req now rnd).2.stats.totalAttestations
            = st.stats.totalAttestations
        ∧ (attest st req now rnd).2.sessions = st.sessions)
    ∧ (ch.code.reverse = ch.code → joinDigits u = joinDigits ch.code →
        (attest st req now rnd).1 = .panicApproved ("DURESS_" ++ rnd) .CRITICAL) := by
  rw [attest_consume_eq st req now rnd n d u bio ch hn hd hu hb hc hused hexp]
  by_cases hpc : joinDigits u = joinDigits ch.code.reverse
  · refine ⟨?_, ?_, ?_⟩
    · simp [attestDecide, hpc]
    · intro _
      simp [attestDecide, hpc]
    · intro _ _
      simp [attestDecide, hpc]
  · refine ⟨?_, fun h => absurd h hpc, ?_⟩
    · simp only [attestDecide, if_neg hpc]
      rcases bio with ⟨bm, bt, bp⟩
      constructor
      · intro h
        exfalso
        cases bm <;> cases bt <;> cases bp <;> simp_all
        split_ifs at h <;> simp_all
      · intro h
        exact absurd h hpc
    · intro hpal hcode
      exact absurd (by rw [hpal]; exact hcode) hpc

/-- C2 witness: answering challenge code 1-2-3 with 3-2-1 triggers the panic
approval; the iff and the duress-event bookkeeping hold at this input. -/
theorem panic_path_iff_reversed_code_witness :
    ((attest wst wreqPanic 50 "r").1 = .panicApproved ("DURESS_" ++ "r") .CRITICAL
      ↔ joinDigits [3, 2, 1] = joinDigits ([1, 2, 3] : List ℕ).reverse)
    ∧ (attest wst wreqPanic 50 "r").2.stats.panicModeActivations
        = wst.stats.panicModeActivations + 1 := by
  have h := panic_path_iff_reversed_code wst wreqPanic 50 "r" "n1" "d" [3, 2, 1]
    ⟨some 0.5, some 0.5, some 0.5⟩ wch rfl rfl rfl rfl (by decide) rfl (by decide)
  exact ⟨h.1, (h.2.1 (by decide)).1⟩

/-- C3 counterexample: at challenge code 1-2-3, the panic approval (response
to 3-2-1) and the normal approval (response to 1-2-3) have different field
sets — the normal approval carries an `expiry` field the panic response lacks
— and differ in `verdict`, not only in `riskScore`. -/
theorem panic_response_shape_counterexample :
    isPanicP0 (attest wst wreqPanic 50 "r").1 = true
    ∧ isApprovedP0 (attest wst wreqNormal 50 "r").1 = true
    ∧ attestFields (attest wst wreqPanic 50 "r").1
        ≠ attestFields (attest wst wreqNormal 50 "r").1
    ∧ attestVerdict (attest wst wreqPanic 50 "r").1
        ≠ attestVerdict (attest wst wreqNormal 50 "r").1 := by
  have h1 : (attest wst wreqPanic 50 "r").1 = .panicApproved ("DURESS_" ++ "r") .CRITICAL := by
    norm_num [attest, attestDecide, wst, wch, wreqPanic, joinDigits, mapInsert]
  have h2 : (attest wst wreqNormal 50 "r").1 = .approved ("VALID_" ++ "r") .MEDIUM 300050 := by
    norm_num [attest, attestDecide, wst, wch, wreqNormal, joinDigits, mapInsert,
      sensorsActiveCount, classifyRisk]
    decide
  rw [h1, h2]
  refine ⟨rfl, rfl, ?_, ?_⟩ <;> simp [attestFields, attestVerdict]

/-- C3 amended: the panic response has exactly the fields
{success, sessionToken, verdict, riskScore}, with verdict
APPROVED_SILENT_ALARM and riskScore CRITICAL; a normal approval has those
same four fields plus `expiry`, with verdict APPROVED.  The two responses
therefore share the four common fields but a caller can distinguish duress
by the missing `expiry` field and by the `verdict` value. -/
theorem panic_vs_normal_response_shape
    (st1 st2 : P0State) (req1 req2 : AttestReq) (now1 now2 : ℤ) (rnd1 rnd2 : String)
    (hpanic : isPanicP0 (attest st1 req1 now1 rnd1).1 = true)
    (hnorm : isApprovedP0 (attest st2 req2 now2 rnd2).1 = true) :
    attestFields (attest st1 req1 now1 rnd1).1
        = ["success", "sessionToken", "verdict", "riskScore"]
    ∧ attestFields (attest st2 req2 now2 rnd2).1
        = ["success", "sessionToken", "verdict", "riskScore", "expiry"]
    ∧ attestFields (attest st2 req2 now2 rnd2).1
        = attestFields (attest st1 req1 now1 rnd1).1 ++ ["expiry"]
    ∧ attestVerdict (attest st1 req1 now1 rnd1).1 = some "APPROVED_SILENT_ALARM"
    ∧ attestVerdict (attest st2 req2 now2 rnd2).1 = some "APPROVED" := by
  have h1 : ∃ tok risk, (attest st1 req1 now1 rnd1).1 = .panicApproved tok risk := by
    cases hx : (attest st1 req1 now1 rnd1).1
    case panicApproved => exact ⟨_, _, rfl⟩
    all_goals rw [hx] at hpanic
    all_goals exact absurd hpanic (by simp [isPanicP0])
  have h2 : ∃ tok risk e, (attest st2 req2 now2 rnd2).1 = .approved tok risk e := by
    cases hx : (attest st2 req2 now2 rnd2).1
    case approved => exact ⟨_, _, _, rfl⟩
    all_goals rw [hx] at hnorm
    all_goals exact absurd hnorm (by simp [isApprovedP0])
  obtain ⟨tok1, risk1, hx1⟩ := h1
  obtain ⟨tok2, risk2, e2, hx2⟩ := h2
  rw [hx1, hx2]
  simp [attestFields, attestVerdict]

/-- C3 amended witness: the shape facts hold at the concrete panic and normal
runs of the counterexample. -/
theorem panic_vs_normal_response_shape_witness :
    attestFields (attest wst wreqPanic 50 "r").1
        = ["success", "sessionToken", "verdict", "riskScore"]
    ∧ attestFields (attest wst wreqNormal 50 "r").1
        = ["success", "sessionToken", "verdict", "riskScore", "expiry"] := by
  have hp : isPanicP0 (attest wst wreqPanic 50 "r").1 = true := by
    norm_num [attest, attestDecide, wst, wch, wreqPanic, joinDigits, mapInsert, isPanicP0]
  have hn : isApprovedP0 (attest wst wreqNormal 50 "r").1 = true := by
    norm_num [attest, attestDecide, wst, wch, wreqNormal, joinDigits, mapInsert,
      sensorsActiveCount, classifyRisk, isApprovedP0]
    decide
  have h := panic_vs_normal_response_shape wst wst wreqPanic wreqNormal 50 50 "r" "r" hp hn
  exact ⟨h.1, h.2.1⟩

/-- C5 counterexample: answering the secure-mode challenge 1-2-3 with the
correct code while exactly one sensor (motion 0.5) is above threshold is
denied by /attest — the claim's "approve when the code matches and at least
one sensor is active" fails on `src/unnamed/part_000`, which requires two. -/
theorem sensor_threshold_counterexample :
    joinDigits [1, 2, 3] = joinDigits wch.code
    ∧ sensorsActiveCount 0.5 0 0 = 1
    ∧ (attest wst wreqOneSensor 50 "r").1 = .denied ["No touch", "No pattern"]
    ∧ isApprovedP0 (attest wst wreqOneSensor 50 "r").1 = false := by
  have h : (attest wst wreqOneSensor 50 "r").1 = .denied ["No touch", "No pattern"] := by
    norm_num [attest, attestDecide, wst, wch, wreqOneSensor, joinDigits, mapInsert,
      sensorsActiveCount, classifyRisk]
    decide
  refine ⟨rfl, by norm_num [sensorsActiveCount], h, ?_⟩
  rw [h]
  rfl

/-- C5 amended: on the normal verification path, the v3 /api/v1/verify
endpoint approves exactly when the submitted code joined equals the stored
code joined AND at least one sensor is active, while the secure-mode /attest
endpoint approves exactly when the code matches AND at least two sensors are
active; in both, a sensor is active per the fixed thresholds motion > 0.15,
touch > 0.15, pattern > 0.10, and a failed conjunct means denial. -/
theorem normal_path_approval_iff
    (challenges : String → Option V3Challenge) (sessions : String → Option Session)
    (client : Client) (req : V3Request) (now : ℤ) (m n : String)
    (u : List ℕ) (bio : BioData) (cd : V3Challenge)
    (hn : req.nonce = some n) (hu : req.userResponse = some u)
    (hb : req.biometricData = some bio) (hc : challenges n = some cd)
    (howner : cd.apiKey = client.apiKey) (hused : cd.used = false)
    (hexp : ¬ cd.expiry < now)
    (st2 : P0State) (req2 : AttestReq) (now2 : ℤ) (rnd2 : String)
    (n2 d2 : String) (u2 : List ℕ) (m2 t2 p2 : ℚ) (ch2 : P0Challenge)
    (hn2 : req2.nonce = some n2) (hd2 : req2.deviceId = some d2)
    (hu2 : req2.userResponse = some u2)
    (hb2 : req2.biometricData = some ⟨some m2, some t2, some p2⟩)
    (hc2 : st2.challenges n2 = some ch2) (hused2 : ch2.used = false)
    (hexp2 : ¬ ch2.expiry < now2)
    (hnopanic : joinDigits u2 ≠ joinDigits ch2.code.reverse) :
    (isApprovedV3 (v3verify challenges sessions client req now m).result = true
      ↔ joinDigits u = joinDigits cd.code
        ∧ sensorsActiveCount (bio.motion.getD 0) (bio.touch.getD 0)
            (bio.pattern.getD 0) ≥ 1)
    ∧ (isApprovedP0 (attest st2 req2 now2 rnd2).1 = true
      ↔ joinDigits u2 = joinDigits ch2.code ∧ sensorsActiveCount m2 t2 p2 ≥ 2) := by
  constructor
  · rw [v3verify_consume_eq challenges sessions client req now m n u bio cd
      hn hu hb hc howner hused hexp]
    simp only [v3decide]
    by_cases hcond : joinDigits u = joinDigits cd.code
      ∧ sensorsActiveCount (bio.motion.getD 0) (bio.touch.getD 0) (bio.pattern.getD 0) ≥ 1
    · rw [if_pos hcond]
      simpa [isApprovedV3] using hcond
    · rw [if_neg hcond]
      simpa [isApprovedV3] using hcond
  · rw [attest_consume_eq st2 req2 now2 rnd2 n2 d2 u2 ⟨some m2, some t2, some p2⟩ ch2
      hn2 hd2 hu2 hb2 hc2 hused2 hexp2]
    simp only [attestDecide, if_neg hnopanic]
    by_cases hcond : joinDigits u2 = joinDigits ch2.code ∧ sensorsActiveCount m2 t2 p2 ≥ 2
    · rw [if_pos hcond]
      simpa [isApprovedP0] using hcond
    · rw [if_neg hcond]
      simpa [isApprovedP0] using hcond

/-- C5 amended witness: at the concrete v3 challenge 4-1-9 with the correct
answer and all sensors at 0.5, the approval iff holds. -/
theorem normal_path_approval_iff_witness :
    isApprovedV3 (v3verify wv3challenges emptyMap wclient wv3req 50 "2026-9").result = true
      ↔ joinDigits [4, 1, 9] = joinDigits wcd.code
        ∧ sensorsActiveCount 0.5 0.5 0.5 ≥ 1 :=
  (normal_path_approval_iff wv3challenges emptyMap wclient wv3req 50 "2026-9" "n1"
    [4, 1, 9] ⟨some 0.5, some 0.5, some 0.5⟩ wcd rfl rfl rfl (by decide) rfl rfl
    (by decide) wst wreqNormal 50 "r" "n1" "d" [1, 2, 3] 0.5 0.5 0.5 wch
    rfl rfl rfl rfl (by decide) rfl (by decide) (by decide)).1

/-- C8: on a normal approval the risk score from avg = (motion+touch+pattern)/3
is LOW exactly when avg > 0.7, MEDIUM exactly when 0.4 < avg ≤ 0.7 and HIGH
otherwise (both boundaries exclusive); and a verify with the correct code and
motion = touch = pattern = 0.5 is approved with riskScore MEDIUM. -/
theorem risk_classification_boundaries
    (challenges : String → Option V3Challenge) (sessions : String → Option Session)
    (client : Client) (req : V3Request) (now : ℤ) (m n : String)
    (cd : V3Challenge) (u : List ℕ)
    (hn : req.nonce = some n) (hu : req.userResponse = some u)
    (hb : req.biometricData = some ⟨some 0.5, some 0.5, some 0.5⟩)
    (hc : challenges n = some cd) (howner : cd.apiKey = client.apiKey)
    (hused : cd.used = false) (hexp : ¬ cd.expiry < now)
    (hcode : joinDigits u = joinDigits cd.code) :
    (∀ avg : ℚ, (classifyRisk avg = .LOW ↔ 0.7 < avg)
      ∧ (classifyRisk avg = .MEDIUM ↔ 0.4 < avg ∧ avg ≤ 0.7)
      ∧ (classifyRisk avg = .HIGH ↔ avg ≤ 0.4))
    ∧ (v3verify challenges sessions client req now m).result
        = .approved .MEDIUM client.name := by
  constructor
  · intro avg
    unfold classifyRisk
    by_cases h1 : avg > 0.7
    · rw [if_pos h1]
      exact ⟨⟨fun _ => h1, fun _ => rfl⟩,
             ⟨fun h => Risk.noConfusion h, fun h => absurd h1 (by linarith [h.2])⟩,
             ⟨fun h => Risk.noConfusion h, fun h => absurd h1 (by linarith)⟩⟩
    · rw [if_neg h1]
      by_cases h2 : avg > 0.4
      · rw [if_pos h2]
        exact ⟨⟨fun h => Risk.noConfusion h, fun h => absurd h h1⟩,
               ⟨fun _ => ⟨h2, by linarith [not_lt.mp h1]⟩, fun _ => rfl⟩,
               ⟨fun h => Risk.noConfusion h, fun h => absurd h2 (by linarith)⟩⟩
      · rw [if_neg h2]
        exact ⟨⟨fun h => Risk.noConfusion h, fun h => absurd h h1⟩,
               ⟨fun h => Risk.noConfusion h, fun h => absurd h2 (by linarith [h.1])⟩,
               ⟨fun _ => not_lt.mp h2, fun _ => rfl⟩⟩
  · rw [v3verify_consume_eq challenges sessions client req now m n u
      ⟨some 0.5, some 0.5, some 0.5⟩ cd hn hu hb hc howner hused hexp]
    simp only [v3decide]
    rw [if_pos ⟨hcode, by norm_num [sensorsActiveCount]⟩]
    norm_num [classifyRisk]

/-- C8 witness: the 0.5/0.5/0.5 happy-path scenario on challenge 4-1-9 is
approved with riskScore MEDIUM (not LOW). -/
theorem risk_classification_boundaries_witness :
    (v3verify wv3challenges emptyMap wclient wv3req 50 "2026-9").result
      = .approved .MEDIUM wclient.name :=
  (risk_classification_boundaries wv3challenges emptyMap wclient wv3req 50 "2026-9"
    "n1" wcd [4, 1, 9] rfl rfl rfl (by decide) rfl rfl (by decide) rfl).2

/-- C7: a verify call made when `now` is past the challenge's expiry fails
with the EXPIRED outcome and never approves, on both servers; and if the
cleanup sweeper already removed the entry, the call fails with the
invalid-nonce outcome — so a missed or delayed sweep can never cause an
expired challenge to be accepted. -/
theorem expired_challenge_never_accepted
    (challenges : String → Option V3Challenge) (sessions : String → Option Session)
    (client : Client) (req : V3Request) (now : ℤ) (m n : String)
    (u : List ℕ) (bio : BioData) (cd : V3Challenge)
    (hn : req.nonce = some n) (hu : req.userResponse = some u)
    (hb : req.biometricData = some bio) (hc : challenges n = some cd)
    (howner : cd.apiKey = client.apiKey) (hused : cd.used = false)
    (hexpired : cd.expiry < now)
    (st2 : P0State) (req2 : AttestReq) (now2 : ℤ) (rnd2 : String)
    (n2 d2 : String) (u2 : List ℕ) (bio2 : BioData) (ch2 : P0Challenge)
    (hn2 : req2.nonce = some n2) (hd2 : req2.deviceId = some d2)
    (hu2 : req2.userResponse = some u2) (hb2 : req2.biometricData = some bio2)
    (hc2 : st2.challenges n2 = some ch2) (hused2 : ch2.used = false)
    (hexpired2 : ch2.expiry < now2) :
    (v3verify challenges sessions client req now m).result = .expired
    ∧ (v3verify (mapDelete challenges n) sessions client req now m).result = .invalidNonce
    ∧ (∀ client2 : Client,
        isApprovedV3 (v3verify challenges sessions client2 req now m).result = false)
    ∧ (attest st2 req2 now2 rnd2).1 = .expired
    ∧ (attest { st2 with challenges := mapDelete st2.challenges n2 } req2 now2 rnd2).1
        = .invalidNonce
    ∧ isApprovedP0 (attest st2 req2 now2 rnd2).1 = false
    ∧ isPanicP0 (attest st2 req2 now2 rnd2).1 = false := by
  have h4 : (attest st2 req2 now2 rnd2).1 = .expired := by
    simp only [attest, hn2, hd2, hu2, hb2, hc2]
    rw [if_neg (by simp [hused2]), if_pos hexpired2]
  refine ⟨?_, ?_, ?_, h4, ?_, by rw [h4]; rfl, by rw [h4]; rfl⟩
  · simp only [v3verify, hn, hu, hb, hc]
    rw [if_neg (by simp [howner]), if_neg (by simp [hused]), if_pos hexpired]
  · simp [v3verify, hn, hu, hb, mapDelete]
  · intro client2
    simp only [v3verify, hn, hu, hb, hc]
    by_cases ho : cd.apiKey ≠ client2.apiKey
    · rw [if_pos ho]
      rfl
    · rw [if_neg ho, if_neg (by simp [hused]), if_pos hexpired]
      rfl
  · simp [attest, hn2, hd2, hu2, hb2, mapDelete]

/-- C7 witness: at time 200 (past the stored expiry 100) both the v3 verify
and the secure-mode attest fail EXPIRED on their pending challenges. -/
theorem expired_challenge_never_accepted_witness :
    (v3verify wv3challenges emptyMap wclient wv3req 200 "2026-9").result = .expired
    ∧ (attest wst wreqNormal 200 "r").1 = .expired := by
  have h := expired_challenge_never_accepted wv3challenges emptyMap wclient wv3req
    200 "2026-9" "n1" [4, 1, 9] ⟨some 0.5, some 0.5, some 0.5⟩ wcd rfl rfl rfl
    (by decide) rfl rfl (by decide) wst wreqNormal 200 "r" "n1" "d" [1, 2, 3]
    ⟨some 0.5, some 0.5, some 0.5⟩ wch rfl rfl rfl rfl (by decide) rfl (by decide)
  exact ⟨h.1, h.2.2.2.1⟩

/-- C4 counterexample: the panic approval on the secure-mode server returns a
DURESS_ token that is never stored in the Session Store — validating it
immediately answers INVALID — so not every approval mints a session. -/
theorem approval_mints_session_counterexample :
    (attest wst wreqPanic 50 "r").1 = .panicApproved ("DURESS_" ++ "r") .CRITICAL
    ∧ (attest wst wreqPanic 50 "r").2.sessions ("DURESS_" ++ "r") = none
    ∧ (p0verify (attest wst wreqPanic 50 "r").2.sessions (some ("DURESS_" ++ "r")) 50).1
        = .invalid := by
  refine ⟨?_, ?_, ?_⟩ <;>
    norm_num [attest, attestDecide, wst, wch, wreqPanic, joinDigits, mapInsert,
      p0verify, emptyMap] <;> decide

/-- C4 amended: approvals have asymmetric side effects.  On the secure-mode
server only a normal approval mints a session: the returned VALID_-prefixed
token is stored with the approval's risk score, issue time and 5-minute
expiry and immediately validates; a session entry appears only through such
an approval (in particular the panic approval's DURESS_ token is never
stored).  On the v3 server every verify call leaves the session store
untouched (it mints no session), an approval rewrites the caller's row as
recordUsage of the month-reset row (usedThisMonth and totalVerifications
each +1), and a non-approval leaves the row unchanged. -/
theorem approval_side_effects
    (st : P0State) (req : AttestReq) (now : ℤ) (rnd : String) (tok : String)
    (risk : Risk) (e : ℤ)
    (happ : (attest st req now rnd).1 = .approved tok risk e) :
    tok = "VALID_" ++ rnd
    ∧ e = now + 5 * 60 * 1000
    ∧ (∃ s : Session, (attest st req now rnd).2.sessions tok = some s
        ∧ s.riskScore = risk ∧ s.expiry = e ∧ s.createdAt = now)
    ∧ (∃ dv, (p0verify (attest st req now rnd).2.sessions (some tok) now).1
        = .valid risk dv now e)
    ∧ (∀ (st0 : P0State) (req0 : AttestReq) (now0 : ℤ) (rnd0 t : String),
        (attest st0 req0 now0 rnd0).2.sessions t ≠ st0.sessions t →
        ∃ r ex, (attest st0 req0 now0 rnd0).1 = .approved t r ex)
    ∧ (∀ (challenges : String → Option V3Challenge)
        (sessions : String → Option Session) (client : Client)
        (vreq : V3Request) (vnow : ℤ) (vm : String),
        (v3verify challenges sessions client vreq vnow vm).sessions = sessions
        ∧ (isApprovedV3 (v3verify challenges sessions client vreq vnow vm).result = true →
            (v3verify challenges sessions client vreq vnow vm).client
              = recordUsage (checkMonthlyReset client vm))
        ∧ (isApprovedV3 (v3verify challenges sessions client vreq vnow vm).result = false →
            (v3verify challenges sessions client vreq vnow vm).client = client)) := by
  obtain ⟨htok, he, s, hs, hrisk, hexpiry, hcreated⟩ :=
    attest_approved_sessions st req now rnd tok risk e happ
  refine ⟨htok, he, ⟨s, hs, hrisk, hexpiry, hcreated⟩, ?_,
    attest_sessions_only_on_approval, fun challenges sessions client vreq vnow vm =>
      v3verify_client_effect challenges sessions client vreq vnow vm⟩
  refine ⟨s.deviceId, ?_⟩
  have htokne : tok ≠ "" := htok ▸ valid_token_ne_empty rnd
  simp only [p0verify, if_neg htokne, hs]
  rw [if_neg (by omega : ¬ s.expiry < now)]
  rw [hrisk, hexpiry, hcreated]

/-- C4 amended witness: a concrete normal approval stores its VALID_ token
with the MEDIUM risk score and it validates immediately. -/
theorem approval_side_effects_witness :
    ("VALID_" ++ "r") = "VALID_" ++ "r"
    ∧ (300050 : ℤ) = 50 + 5 * 60 * 1000
    ∧ (∃ s : Session, (attest wst wreqNormal 50 "r").2.sessions ("VALID_" ++ "r") = some s
        ∧ s.riskScore = .MEDIUM ∧ s.expiry = 300050 ∧ s.createdAt = 50) := by
  have happ : (attest wst wreqNormal 50 "r").1 = .approved ("VALID_" ++ "r") .MEDIUM 300050 := by
    norm_num [attest, attestDecide, wst, wch, wreqNormal, joinDigits, mapInsert,
      sensorsActiveCount, classifyRisk]
    decide
  have h := approval_side_effects wst wreqNormal 50 "r" ("VALID_" ++ "r") .MEDIUM 300050 happ
  exact ⟨h.1, h.2.1, h.2.2.1⟩

/-- C6: for a tenant with monthlyLimit different from 0 (the code tests
`monthly_limit > 0`, equivalent over the non-negative column), the admit gate
returns LIMIT_REACHED whenever, after the month-boundary reset check,
usedThisMonth reaches monthlyLimit, so over any trace of admit-gated verify
attempts usedThisMonth never exceeds monthlyLimit; and whenever the observed
calendar year-month differs from lastResetMonth, the gate zeroes
usedThisMonth, updates lastResetMonth and admits the tenant again. -/
theorem monthly_quota_gate (c : Client) (now : ℤ) (m key : String)
    (hactive : c.status = "active")
    (hnotexp : ¬ (jsTruthy c.expiresAt = true ∧ jsNum c.expiresAt < now))
    (hlim0 : c.monthlyLimit ≠ 0) :
    ((checkMonthlyReset c m).monthlyLimit ≤ (checkMonthlyReset c m).usedThisMonth →
        (validateApiKey (some key) (fun _ => some c) now m).1 = .limitReached)
    ∧ (∀ l : List (ℤ × String × String × Bool),
        c.usedThisMonth ≤ c.monthlyLimit →
        (tenantRun c l).usedThisMonth ≤ c.monthlyLimit)
    ∧ (c.lastResetMonth ≠ m →
        (admitClient c now m).1 = .ok
        ∧ (admitClient c now m).2.usedThisMonth = 0
        ∧ (admitClient c now m).2.lastResetMonth = m) := by
  refine ⟨?_, ?_, ?_⟩
  · intro hreach
    have hl := checkMonthlyReset_monthlyLimit c m
    simp only [validateApiKey, admitClient]
    rw [if_neg (by simp [hactive]), if_neg hnotexp,
      if_pos ⟨by omega, hreach⟩]
  · intro l hused
    have h := tenantRun_quota l c (fun _ => hused)
    have := h.2 (by rw [h.1]; exact hlim0)
    rw [h.1] at this
    exact this
  · intro hm
    have hreset : checkMonthlyReset c m
        = { c with usedThisMonth := 0, lastResetMonth := m } := by
      simp [checkMonthlyReset, hm]
    simp only [admitClient]
    rw [if_neg (by simp [hactive]), if_neg hnotexp, hreset,
      if_neg (by simp; omega)]
    exact ⟨rfl, rfl, rfl⟩

/-- C6 witness: a tenant at 5000/5000 usage in the current month is rejected
LIMIT_REACHED by the gate. -/
theorem monthly_quota_gate_witness :
    (validateApiKey (some "k1") (fun _ => some wclientFull) 50 "2026-9").1
      = .limitReached := by
  have h := monthly_quota_gate wclientFull 50 "2026-9" "k1" rfl (by decide) (by decide)
  exact h.1 (by decide)

/-- C1: for any nonce and any sequence of well-formed v3 verify calls
presenting it, at most one call consumes the nonce — consumption (reaching
the `used = true` mark-and-delete region) is exactly answering Approved or a
normal Denied, so the used flag transitions false→true at most once — and
every call answers either a consuming outcome or one of the replay/lifecycle
outcomes (invalid nonce, owner mismatch, replay, expired); a consuming call
removes the entry from the store (so even a normal Denied consumes the
nonce).  On the secure-mode server, likewise, any consuming /attest call
removes the entry and a call presenting an absent nonce answers the
invalid-nonce outcome. -/
theorem nonce_one_time_use (n : String)
    (challenges : String → Option V3Challenge) (sessions : String → Option Session)
    (reqs : List (Client × V3Request × ℤ × String))
    (hwf : reqs.all (wfReq n) = true) :
    countConsuming (v3verifyRun challenges sessions reqs) ≤ 1
    ∧ (∀ r ∈ v3verifyRun challenges sessions reqs,
        v3consumes r = true ∨ replayInvalid r = true)
    ∧ (∀ (ch2 : String → Option V3Challenge) (s2 : String → Option Session)
        (client : Client) (req : V3Request) (now : ℤ) (m : String),
        req.nonce = some n →
        v3consumes (v3verify ch2 s2 client req now m).result = true →
        (v3verify ch2 s2 client req now m).challenges n = none)
    ∧ (∀ (st : P0State) (req2 : AttestReq) (now2 : ℤ) (rnd : String),
        req2.nonce = some n →
        p0consumes (attest st req2 now2 rnd).1 = true →
        (attest st req2 now2 rnd).2.challenges n = none)
    ∧ (∀ (st : P0State) (req2 : AttestReq) (now2 : ℤ) (rnd d : String)
        (u : List ℕ) (bio : BioData),
        req2.nonce = some n → req2.deviceId = some d →
        req2.userResponse = some u → req2.biometricData = some bio →
        st.challenges n = none → (attest st req2 now2 rnd).1 = .invalidNonce) := by
  refine ⟨v3verifyRun_count n challenges sessions reqs hwf,
    v3verifyRun_classified n challenges sessions reqs hwf,
    fun ch2 s2 client req now m hn hc =>
      v3verify_consumes_deletes ch2 s2 client req now m n hn hc,
    fun st req2 now2 rnd hn hc =>
      attest_consumes_deletes st req2 now2 rnd n hn hc,
    fun st req2 now2 rnd d u bio hn hd hu hb h =>
      attest_absent st req2 now2 rnd n d u bio hn hd hu hb h⟩

/-- C1 witness: two identical well-formed verify calls racing on nonce n1
produce at most one consuming outcome. -/
theorem nonce_one_time_use_witness :
    wreqs.all (wfReq "n1") = true
    ∧ countConsuming (v3verifyRun wv3challenges emptyMap wreqs) ≤ 1 :=
  ⟨by decide, (nonce_one_time_use "n1" wv3challenges emptyMap wreqs (by decide)).1⟩

end ZKinetic
